import Mathlib

/-
Verification of the stream-watch supervision core of KickDropsMiner.

The model embeds, faithfully to the Python sources:
  * `StreamWorker.is_stream_live`    (src/core/worker.py, lines 224-309)
  * `StreamWorker.run`'s loop        (src/core/worker.py, lines 63-183)
  * the offline/wrong-category fallback scan of `App.on_worker_finish`
                                     (src/ui/app.py, lines 2800-2856)
  * `kick_is_live_by_api` / `kick_live_status_by_api` (src/core/api.py, lines 13-37)

Side effects (clock reads, browser/script calls, owner callbacks) are supplied
by explicit oracle records; machine floats of the Python code (time stamps,
jitter, poll intervals) are modelled with `Int`, which is exact for every
comparison the code performs.
-/

namespace KDM

/-! ## Python string primitives used by the code -/

/-- Python `str.upper()` (ASCII suffices for every string the code feeds it). -/
def pyUpper (s : String) : String := String.mk (s.toList.map Char.toUpper)

/-- Contiguous sublist test (used for Python substring containment). -/
def listInfixOf [BEq α] : List α → List α → Bool
  | needle, [] => needle.isEmpty
  | needle, h :: t => needle.isPrefixOf (h :: t) || listInfixOf needle t

/-- Python `needle in hay` substring test. -/
def containsSub (needle hay : String) : Bool := listInfixOf needle.toList hay.toList

/-- Python truthiness of an optional string (`if username:`). -/
def isTruthyStr : Option String → Bool
  | none => false
  | some s => s ≠ ""

/-! ## The compiled regular expression of `is_stream_live`

Line 271 of worker.py compiles the raw string `r"\"is_live\"\\s*:\\s*(true|false)"`
with `re.IGNORECASE`.  Because the literal is a *raw* string, `\\s` denotes a
literal backslash followed by `s*` (zero or more letters `s`), not a whitespace
class.  The compiled pattern is therefore:

  `"is_live"` , one backslash, any number of `s`, `:` , one backslash,
  any number of `s`, then `true` or `false`   (case-insensitively).

The functions below implement exactly that pattern; greedy matching of `s*`
needs no backtracking because the tokens that follow (`:`, `t`, `f`) are never
matched by `s`. -/

/-- Case-insensitive character equality (`re.IGNORECASE`). -/
def lcEq (a b : Char) : Bool := a.toLower == b.toLower

/-- Strip a literal pattern prefix, case-insensitively. -/
def stripCI : List Char → List Char → Option (List Char)
  | [], cs => some cs
  | _ :: _, [] => none
  | p :: ps, c :: cs => if lcEq p c then stripCI ps cs else none

/-- Consume `s*` greedily (case-insensitive). -/
def dropSs (cs : List Char) : List Char := cs.dropWhile (fun c => c.toLower == 's')

/-- Try to match the compiled pattern at the head of the text; returns the
captured alternative (`true`/`false`) on success. -/
def matchIsLiveAt (cs : List Char) : Option Bool :=
  match stripCI ("\"is_live\"\\").toList cs with
  | none => none
  | some cs1 =>
    match stripCI [':', '\\'] (dropSs cs1) with
    | none => none
    | some cs2 =>
      let cs3 := dropSs cs2
      match stripCI ("true").toList cs3 with
      | some _ => some true
      | none =>
        match stripCI ("false").toList cs3 with
        | some _ => some false
        | none => none

/-- `re.search`: leftmost position at which the pattern matches. -/
def regexSearchIsLive : List Char → Option Bool
  | [] => none
  | c :: rest =>
    match matchIsLiveAt (c :: rest) with
    | some b => some b
    | none => regexSearchIsLive rest

/-! ## The DOM offline heuristic (worker.py lines 280-296) -/

/-- The fixed tuple `offline_markers` of `is_stream_live`. -/
def offline_markers : List String :=
  ["OFFLINE", "IS OFFLINE", "CHANNEL IS OFFLINE", "NOT LIVE", "HORS LIGNE",
   "N\x27EST PAS EN DIRECT"]

/-- `any(m in body for m in offline_markers)` applied to `body.text.upper()`. -/
def domSaysOffline (body : String) : Bool :=
  offline_markers.any (fun m => containsSub m (pyUpper body))

/-! ## `is_stream_live` (worker.py lines 224-309) -/

/-- Outcome of the authenticated in-context fetch source (lines 234-256):
`execute_async_script` plus `json.loads` plus the dict checks. -/
inductive ApiOutcome where
  /-- the script call or `json.loads` raised (swallowed by the inner `except`) -/
  | exc : ApiOutcome
  /-- empty text (`data = None`) or the parsed value is not a dict -/
  | notDict : ApiOutcome
  /-- a dict carrying a truthy `"error"` entry -/
  | errDict : ApiOutcome
  /-- a dict without `"error"`; the argument is
  `bool(livestream and livestream.get("is_live"))` -/
  | ok : Bool → ApiOutcome
deriving DecidableEq

/-- Outcome of the embedded page-state script (lines 259-269). -/
inductive PageStateOutcome where
  /-- `execute_script` raised (swallowed) -/
  | exc : PageStateOutcome
  /-- the script returned; `none` models `null` or a non-string value -/
  | ret : Option String → PageStateOutcome
deriving DecidableEq

/-- External inputs of one `is_stream_live` call. -/
structure LiveProbeEnv where
  /-- `time.time()` at entry -/
  now : Int
  api : ApiOutcome
  pageState : PageStateOutcome
  /-- visible body text; `none` models `find_element` raising -/
  bodyText : Option String
  /-- `random.uniform(-3, 3)` of the `finally` block -/
  jitter : Int
deriving DecidableEq

/-- The liveness cache fields of `StreamWorker` (worker.py lines 55-58). -/
structure LiveCache where
  last_live_check : Int
  last_live_value : Bool
  live_check_interval : Int
  last_live_source : String
deriving DecidableEq

/-- Cache contents set by `StreamWorker.__init__` (lines 55-58):
`_last_live_check = 0.0`, `_last_live_value = True`,
`_live_check_interval = 10`, `_last_live_source = "unknown"`. -/
def initialLiveCache : LiveCache :=
  { last_live_check := 0, last_live_value := true,
    live_check_interval := 10, last_live_source := "unknown" }

/-- Result of one `is_stream_live` call: the returned boolean, the cache
afterwards, and whether any probe source was consulted (cache miss). -/
structure LiveResult where
  value : Bool
  cache : LiveCache
  probed : Bool
deriving DecidableEq

/-- Lines 233-256: the authenticated in-context fetch source (guarded by the
`if username:` truthiness test); `some (b, src)` means the source concluded. -/
def viaApiSource (username : Option String) (e : LiveProbeEnv) :
    Option (Bool × String) :=
  if isTruthyStr username then
    match e.api with
    | ApiOutcome.ok b => some (b, "browser_api")
    | _ => none
  else none

/-- Lines 258-278: the embedded page-state scrape (also under `if username:`):
a non-empty string result is searched with the compiled regex. -/
def viaPageSource (username : Option String) (e : LiveProbeEnv) :
    Option (Bool × String) :=
  if isTruthyStr username then
    match e.pageState with
    | PageStateOutcome.ret (some s) =>
      if s ≠ "" then
        match regexSearchIsLive s.toList with
        | some b => some (b, "page_state")
        | none => none
      else none
    | _ => none
  else none

/-- Lines 280-296: the DOM text heuristic; it can only conclude offline. -/
def viaDomSource (e : LiveProbeEnv) : Option (Bool × String) :=
  match e.bodyText with
  | some body => if domSaysOffline body then some (false, "dom_offline") else none
  | none => none

/-- The first conclusive source, or the cached-value fall-through of lines
298-299.  Components: returned value, recorded source, and whether any source
concluded (i.e. whether `_last_live_value` gets overwritten). -/
def resolveSources (username : Option String) (c : LiveCache) (e : LiveProbeEnv) :
    Bool × String × Bool :=
  match viaApiSource username e with
  | some (b, s) => (b, s, true)
  | none =>
    match viaPageSource username e with
    | some (b, s) => (b, s, true)
    | none =>
      match viaDomSource e with
      | some (b, s) => (b, s, true)
      | none => (c.last_live_value, "unknown", false)

/-- `StreamWorker.is_stream_live` (worker.py lines 224-309).  The early cached
return on line 229 sits *before* the `try`, so the `finally` block does not run
on that path.  The outer `except` on lines 300-303 is unreachable: every
statement under the `try` that can raise is wrapped by an inner
`try/except: pass` (and `_kick_username_from_url` catches internally). -/
def is_stream_live (username : Option String) (c : LiveCache) (e : LiveProbeEnv) :
    LiveResult :=
  if e.now - c.last_live_check < c.live_check_interval then
    { value := c.last_live_value, cache := c, probed := false }
  else
    let step := resolveSources username c e
    let newVal : Bool := if step.2.2 then step.1 else c.last_live_value
    let base : Int := if newVal then 8 else 5
    { value := step.1
      cache := { last_live_check := e.now
                 last_live_value := newVal
                 live_check_interval := max 4 (base + e.jitter)
                 last_live_source := step.2.1 }
      probed := true }

/-! ## The supervision loop `StreamWorker.run` (worker.py lines 63-183)

The loop body is split into phase functions that mirror the code blocks of the
Python loop; `stepIter` chains them with the same early-`break` structure, and
`runLoop`/`workerRun` add the `while not self.stop_event.is_set()` head test,
the surrounding `try/except` and the `finally` block. -/

/-- Constructor arguments of `StreamWorker` that the loop reads. -/
structure WorkerConfig where
  /-- `_kick_username_from_url(self.url)` (fixed for the worker's url) -/
  username : Option String
  /-- `self.minutes_target` -/
  minutes_target : Nat
  /-- `self.offline_fresh_checks_to_switch = max(0, int(... or 0))` -/
  offline_fresh_checks_to_switch : Nat
  /-- `self.required_category_id` -/
  required_category_id : Option Int
  /-- whether `self.cumulative_time_callback` is set -/
  has_cumulative_callback : Bool
  /-- whether `self.on_update` is set -/
  has_on_update : Bool
  /-- whether `self.on_finish` is set -/
  has_on_finish : Bool
deriving DecidableEq

/-- The mutable worker attributes the loop touches, plus the loop-local
`last_report`. -/
structure WorkerState where
  elapsed_seconds : Nat
  completed : Bool
  ended_because_offline : Bool
  ended_because_wrong_category : Bool
  /-- `self._offline_fresh_checks` -/
  offline_fresh_checks : Nat
  live : LiveCache
  /-- `self._last_category_check` -/
  last_category_check : Int
  /-- the local `last_report` of `run` (initialised to `0` on line 115) -/
  last_report : Int
deriving DecidableEq

/-- Worker state right after `__init__` and the `last_report = 0` assignment. -/
def initialWorkerState : WorkerState :=
  { elapsed_seconds := 0, completed := false, ended_because_offline := false,
    ended_because_wrong_category := false, offline_fresh_checks := 0,
    live := initialLiveCache, last_category_check := 0, last_report := 0 }

/-- External inputs of one loop iteration. -/
structure IterEnv where
  /-- `self.stop_event.is_set()` at the top-of-loop test of this iteration -/
  stopSet : Bool
  /-- inputs of this iteration's `is_stream_live` call -/
  probe : LiveProbeEnv
  /-- `time.time()` read in the category block (line 141) -/
  tCat : Int
  /-- `self.get_streamer_category_id()`; `none` also covers all its internal
  error paths (the function returns `None` on any failure) -/
  categoryResult : Option Int
  /-- `time.time()` read in the report condition (line 152) -/
  tRep : Int
  /-- `time.time()` stored into `last_report` (line 153) -/
  tRepSet : Int
  /-- the owner's `on_update` callback raises when invoked -/
  updateRaises : Bool
  /-- `self.cumulative_time_callback()`; `none` models the callback raising -/
  cumulativeResult : Option Int
deriving DecidableEq

/-- Owner-visible callback invocations. -/
inductive Event where
  /-- `self.on_update(self.elapsed_seconds, live)` -/
  | progress : Nat → Bool → Event
  /-- `self.on_finish(self.elapsed_seconds, self.completed)` -/
  | finish : Nat → Bool → Event
deriving DecidableEq

def Event.isFinish : Event → Bool
  | Event.finish _ _ => true
  | _ => false

/-- How one loop-body execution ended. -/
inductive StepExit where
  | cont : StepExit
  | brk : StepExit
  | exc : StepExit
deriving DecidableEq

structure StepResult where
  exit : StepExit
  state : WorkerState
  /-- arguments of this iteration's `on_update` call, if it happened -/
  progressEvent : Option (Nat × Bool)
  /-- whether `get_streamer_category_id` was invoked this iteration -/
  categoryProbed : Bool
deriving DecidableEq

/-- Lines 117-130: the `is_stream_live` call, the freshness bookkeeping via
`_last_live_check`, and the consecutive-offline counter update. -/
def livenessPhase (cfg : WorkerConfig) (e : IterEnv) (s : WorkerState) :
    WorkerState × Bool :=
  let r := is_stream_live cfg.username s.live e.probe
  let counter :=
    if r.cache.last_live_check ≠ s.live.last_live_check then
      (if r.value then 0 else s.offline_fresh_checks + 1)
    else s.offline_fresh_checks
  ({ s with live := r.cache, offline_fresh_checks := counter }, r.value)

/-- Lines 131-135: the sustained-offline break condition (note the Python
truthiness test on `self.offline_fresh_checks_to_switch`). -/
def offlineBreakB (cfg : WorkerConfig) (live : Bool) (s : WorkerState) : Bool :=
  !live && decide (cfg.offline_fresh_checks_to_switch ≠ 0) &&
    decide (cfg.offline_fresh_checks_to_switch ≤ s.offline_fresh_checks)

/-- Lines 139-148: the throttled category check.  Returns the state, whether
the category probe ran, and whether the mismatch break fires. -/
def categoryPhase (cfg : WorkerConfig) (e : IterEnv) (live : Bool)
    (s : WorkerState) : WorkerState × Bool × Bool :=
  match cfg.required_category_id with
  | none => (s, false, false)
  | some req =>
    if req ≠ 0 ∧ live = true then
      if e.tCat - s.last_category_check ≥ 30 then
        let s1 := { s with last_category_check := e.tCat }
        match e.categoryResult with
        | some cid => (s1, true, decide (cid ≠ req))
        | none => (s1, true, false)
      else (s, false, false)
    else (s, false, false)

/-- Lines 150-155: elapsed-seconds increment and the once-per-second progress
report.  Returns the state, the `on_update` arguments (if invoked), and whether
the callback raised. -/
def reportPhase (cfg : WorkerConfig) (e : IterEnv) (live : Bool)
    (s : WorkerState) : WorkerState × Option (Nat × Bool) × Bool :=
  let s1 := if live then { s with elapsed_seconds := s.elapsed_seconds + 1 } else s
  if e.tRep - s1.last_report ≥ 1 then
    let s2 := { s1 with last_report := e.tRepSet }
    if cfg.has_on_update then (s2, some (s2.elapsed_seconds, live), e.updateRaises)
    else (s2, none, false)
  else (s1, none, false)

inductive CompletionRes where
  | proceed : CompletionRes
  | finishBrk : CompletionRes
  | excRaise : CompletionRes
deriving DecidableEq

/-- Lines 157-169: the completion check (cumulative when the callback is set,
individual otherwise; skipped entirely when `minutes_target` is falsy). -/
def completionPhase (cfg : WorkerConfig) (e : IterEnv) (s : WorkerState) :
    CompletionRes :=
  if cfg.minutes_target ≠ 0 then
    if cfg.has_cumulative_callback then
      match e.cumulativeResult with
      | none => CompletionRes.excRaise
      | some cv =>
        if cv ≥ (cfg.minutes_target : Int) * 60 then CompletionRes.finishBrk
        else CompletionRes.proceed
    else
      if s.elapsed_seconds ≥ cfg.minutes_target * 60 then CompletionRes.finishBrk
      else CompletionRes.proceed
  else CompletionRes.proceed

/-- One execution of the loop body (worker.py lines 117-170), i.e. everything
between the top-of-loop `stop_event` test and `time.sleep(1)`. -/
def stepIter (cfg : WorkerConfig) (e : IterEnv) (s : WorkerState) : StepResult :=
  let lp := livenessPhase cfg e s
  let s1 := lp.1
  let live := lp.2
  if offlineBreakB cfg live s1 then
    { exit := StepExit.brk, state := { s1 with ended_because_offline := true },
      progressEvent := none, categoryProbed := false }
  else
    let cp := categoryPhase cfg e live s1
    let s2 := cp.1
    if cp.2.2 then
      { exit := StepExit.brk,
        state := { s2 with ended_because_wrong_category := true },
        progressEvent := none, categoryProbed := cp.2.1 }
    else
      let rp := reportPhase cfg e live s2
      let s3 := rp.1
      if rp.2.2 then
        { exit := StepExit.exc, state := s3, progressEvent := rp.2.1,
          categoryProbed := cp.2.1 }
      else
        match completionPhase cfg e s3 with
        | CompletionRes.excRaise =>
          { exit := StepExit.exc, state := s3, progressEvent := rp.2.1,
            categoryProbed := cp.2.1 }
        | CompletionRes.finishBrk =>
          { exit := StepExit.brk, state := { s3 with completed := true },
            progressEvent := rp.2.1, categoryProbed := cp.2.1 }
        | CompletionRes.proceed =>
          { exit := StepExit.cont, state := s3, progressEvent := rp.2.1,
            categoryProbed := cp.2.1 }

/-- Events emitted by one loop-body execution. -/
def stepEvents (r : StepResult) : List Event :=
  match r.progressEvent with
  | some (n, l) => [Event.progress n l]
  | none => []

/-- How the `while` loop ended. -/
inductive LoopExit where
  /-- top-of-loop `stop_event.is_set()` was true -/
  | stopped : LoopExit
  /-- a `break` fired inside the body -/
  | broke : LoopExit
  /-- an exception escaped to the outer `except` -/
  | excd : LoopExit
  /-- fuel exhausted: the real loop is still running -/
  | fuelOut : LoopExit
deriving DecidableEq

/-- The `while not self.stop_event.is_set():` loop (lines 116-170), bounded by
`fuel` iterations; `i` numbers the iterations so the oracle `env` can vary over
time (in particular so the stop flag can become set between iterations). -/
def runLoop (cfg : WorkerConfig) (env : Nat → IterEnv) :
    Nat → Nat → WorkerState → LoopExit × WorkerState × List Event
  | 0, _, s => (LoopExit.fuelOut, s, [])
  | Nat.succ fuel, i, s =>
    if (env i).stopSet then (LoopExit.stopped, s, [])
    else
      let r := stepIter cfg (env i) s
      match r.exit with
      | StepExit.brk => (LoopExit.broke, r.state, stepEvents r)
      | StepExit.exc => (LoopExit.excd, r.state, stepEvents r)
      | StepExit.cont =>
        match runLoop cfg env fuel (i + 1) r.state with
        | (x, s1, evs) => (x, s1, stepEvents r ++ evs)

/-- The `finally` block's terminal callback (lines 179-183). -/
def finishEvents (cfg : WorkerConfig) (s : WorkerState) : List Event :=
  if cfg.has_on_finish then [Event.finish s.elapsed_seconds s.completed] else []

/-- Everything `StreamWorker.run` makes observable: the callback trace, the
final attribute values, and how the loop ended. -/
structure RunOutcome where
  events : List Event
  final : WorkerState
  exit : LoopExit
deriving DecidableEq

/-- `StreamWorker.run` (worker.py lines 63-183): startup (whose failure jumps
straight to the `finally` block, modelled by `startupFails`), the loop, and the
guaranteed cleanup that invokes `on_finish` exactly where the code does.
Returns `none` when the loop has not ended within `fuel` iterations (the real
thread is still running and `on_finish` has not fired yet). -/
def workerRun (cfg : WorkerConfig) (env : Nat → IterEnv) (startupFails : Bool)
    (fuel : Nat) : Option RunOutcome :=
  if startupFails then
    some { events := finishEvents cfg initialWorkerState,
           final := initialWorkerState, exit := LoopExit.excd }
  else
    match runLoop cfg env fuel 0 initialWorkerState with
    | (LoopExit.fuelOut, _, _) => none
    | (x, s, evs) =>
      some { events := evs ++ finishEvents cfg s, final := s, exit := x }

/-! ## `kick_is_live_by_api` (src/core/api.py lines 13-37)

`urllib.parse.urlparse` is modelled for the URL shapes this code sees:
with a scheme separator `://`, `netloc` is the text up to the next `/` and
`path` the remainder; without one, `netloc` is empty and `path` is the whole
string (which is what `urlparse` yields for scheme-less inputs). -/

/-- Characters after the first `://`, if any. -/
def afterSchemeL : List Char → Option (List Char)
  | [] => none
  | ':' :: '/' :: '/' :: rest => some rest
  | _ :: rest => afterSchemeL rest

/-- `urlparse(url).netloc` for the URL shapes in play. -/
def netlocOf (url : String) : String :=
  match afterSchemeL url.toList with
  | none => ""
  | some rest => String.mk (rest.takeWhile (fun c => c ≠ '/'))

/-- `urlparse(url).path` (as characters) for the URL shapes in play. -/
def pathCharsOf (url : String) : List Char :=
  match afterSchemeL url.toList with
  | none => url.toList
  | some rest => rest.dropWhile (fun c => c ≠ '/')

/-- Python `s.strip("/")` on characters. -/
def stripSlashesL (cs : List Char) : List Char :=
  ((cs.dropWhile (fun c => c = '/')).reverse.dropWhile (fun c => c = '/')).reverse

/-- `p.path.strip("/").split("/")[0]` of `kick_live_status_by_api` (the first
`/`-separated segment of the stripped path; empty when the path is empty). -/
def usernameOf (url : String) : String :=
  String.mk ((stripSlashesL (pathCharsOf url)).takeWhile (fun c => c ≠ '/'))

/-- `kick_live_status_by_api` (api.py lines 21-37).  `net` models the
`urlopen`/`json.load`/dict-access chain for a given request URL: `none` is any
exception on that path (caught by the blanket `except`, yielding `None`), and
`some b` is `bool(livestream and livestream.get("is_live"))`. -/
def kick_live_status_by_api (net : String → Option Bool) (url : String) :
    Option Bool :=
  if containsSub "kick.com" (netlocOf url) = false then none
  else
    let username := usernameOf url
    if username = "" then none
    else net ("https://kick.com/api/v2/channels/" ++ username)

/-- `kick_is_live_by_api` (api.py lines 13-18). -/
def kick_is_live_by_api (net : String → Option Bool) (url : String) : Bool :=
  match kick_live_status_by_api net url with
  | none => true
  | some b => b

/-! ## The fallback scan of `App.on_worker_finish` (src/ui/app.py 2800-2856)

Executed when a worker ends with `ended_because_offline` or
`ended_because_wrong_category` and `campaign_id and campaign_channels` is
truthy.  Channel entries are modelled by the url string the code extracts from
them (`ch.get("url") if isinstance(ch, dict) else ch`), with `""` standing for
a falsy extraction.  Because `tried_channels` is the item's own list object,
the in-place `append`/`clear` mutations *are* the persisted result; the model
returns the selected channel and the final list contents. -/

/-- `all_channel_urls`: the truthy channel urls, plus the current url when it
is not already among them. -/
def allChannelUrls (channels : List String) (current : String) : List String :=
  let urls := channels.filter (fun c => c ≠ "")
  if current ∈ urls then urls else urls ++ [current]

/-- The `for alt_channel in campaign_channels:` scan: the first truthy url that
is not the current one, not in `tried`, and whose direct liveness probe says
live. -/
def scanChannels (isLive : String → Bool) (current : String)
    (tried : List String) : List String → Option String
  | [] => none
  | ch :: rest =>
    if ch ≠ "" ∧ ch ≠ current ∧ ch ∉ tried ∧ isLive ch = true then some ch
    else scanChannels isLive current tried rest

/-- The current url is appended to `tried_channels` when absent (the
`if current_url not in tried_channels` block). -/
def triedWithCurrent (tried : List String) (current : String) : List String :=
  if current ∈ tried then tried else tried ++ [current]

/-- The `tried_channels.clear()` on full-cycle exhaustion: the list is emptied
exactly when its length already reaches that of `all_channel_urls`. -/
def triedAfterReset (channels : List String) (current : String)
    (tried : List String) : List String :=
  if (triedWithCurrent tried current).length ≥
      (allChannelUrls channels current).length then []
  else triedWithCurrent tried current

/-- The whole fallback block: append the current url to `tried_channels` when
absent, reset the list when it already spans `all_channel_urls`, scan the
siblings, and append the selected channel.  Returns
`(selected channel, final tried_channels)`. -/
def nextChannel (isLive : String → Bool) (current : String)
    (channels : List String) (tried0 : List String) :
    Option String × List String :=
  let tried2 := triedAfterReset channels current tried0
  match scanChannels isLive current tried2 channels with
  | some ch => (some ch, tried2 ++ [ch])
  | none => (none, tried2)

/-! ## Helper lemmas -/

theorem is_stream_live_hit (u : Option String) (c : LiveCache) (e : LiveProbeEnv)
    (h : e.now - c.last_live_check < c.live_check_interval) :
    is_stream_live u c e =
      { value := c.last_live_value, cache := c, probed := false } := by
  unfold is_stream_live
  rw [if_pos h]

theorem is_stream_live_miss_stamp (u : Option String) (c : LiveCache)
    (e : LiveProbeEnv) (h : ¬ e.now - c.last_live_check < c.live_check_interval) :
    (is_stream_live u c e).cache.last_live_check = e.now ∧
      (is_stream_live u c e).probed = true := by
  unfold is_stream_live
  rw [if_neg h]
  exact ⟨rfl, rfl⟩

theorem livenessPhase_hit (cfg : WorkerConfig) (e : IterEnv) (s : WorkerState)
    (h : e.probe.now - s.live.last_live_check < s.live.live_check_interval) :
    livenessPhase cfg e s = (s, s.live.last_live_value) := by
  unfold livenessPhase
  rw [is_stream_live_hit cfg.username s.live e.probe h]
  simp

theorem livenessPhase_miss (cfg : WorkerConfig) (e : IterEnv) (s : WorkerState)
    (h : ¬ e.probe.now - s.live.last_live_check < s.live.live_check_interval)
    (hpos : 0 < s.live.live_check_interval) :
    livenessPhase cfg e s =
      ({ s with live := (is_stream_live cfg.username s.live e.probe).cache,
                offline_fresh_checks :=
                  if (is_stream_live cfg.username s.live e.probe).value then 0
                  else s.offline_fresh_checks + 1 },
        (is_stream_live cfg.username s.live e.probe).value) := by
  have hstamp := (is_stream_live_miss_stamp cfg.username s.live e.probe h).1
  have hne : (is_stream_live cfg.username s.live e.probe).cache.last_live_check ≠
      s.live.last_live_check := by
    rw [hstamp]; omega
  unfold livenessPhase
  dsimp only
  rw [if_pos hne]

theorem categoryPhase_state (cfg : WorkerConfig) (e : IterEnv) (live : Bool)
    (s : WorkerState) :
    ∃ t, (categoryPhase cfg e live s).1 = { s with last_category_check := t } := by
  unfold categoryPhase
  rcases cfg.required_category_id with _ | req
  · exact ⟨s.last_category_check, rfl⟩
  · dsimp only
    split_ifs with h1 h2
    · rcases e.categoryResult with _ | cid <;> exact ⟨e.tCat, rfl⟩
    · exact ⟨s.last_category_check, rfl⟩
    · exact ⟨s.last_category_check, rfl⟩

theorem reportPhase_state (cfg : WorkerConfig) (e : IterEnv) (live : Bool)
    (s : WorkerState) :
    ∃ n t, (reportPhase cfg e live s).1 =
      { s with elapsed_seconds := n, last_report := t } := by
  unfold reportPhase
  dsimp only
  split_ifs with h1 h2 h3 h4 h5
  all_goals first
    | exact ⟨s.elapsed_seconds + 1, e.tRepSet, rfl⟩
    | exact ⟨s.elapsed_seconds + 1, s.last_report, rfl⟩
    | exact ⟨s.elapsed_seconds, e.tRepSet, rfl⟩
    | exact ⟨s.elapsed_seconds, s.last_report, rfl⟩

theorem reportPhase_counter (cfg : WorkerConfig) (e : IterEnv) (live : Bool)
    (s : WorkerState) :
    ((reportPhase cfg e live s).1).offline_fresh_checks =
      s.offline_fresh_checks := by
  obtain ⟨n, t, h⟩ := reportPhase_state cfg e live s
  rw [h]

theorem reportPhase_offline_flag (cfg : WorkerConfig) (e : IterEnv) (live : Bool)
    (s : WorkerState) :
    ((reportPhase cfg e live s).1).ended_because_offline =
      s.ended_because_offline := by
  obtain ⟨n, t, h⟩ := reportPhase_state cfg e live s
  rw [h]

theorem reportPhase_completed_eq (cfg : WorkerConfig) (e : IterEnv) (live : Bool)
    (s : WorkerState) :
    ((reportPhase cfg e live s).1).completed = s.completed := by
  obtain ⟨n, t, h⟩ := reportPhase_state cfg e live s
  rw [h]

theorem reportPhase_wrongcat_eq (cfg : WorkerConfig) (e : IterEnv) (live : Bool)
    (s : WorkerState) :
    ((reportPhase cfg e live s).1).ended_because_wrong_category =
      s.ended_because_wrong_category := by
  obtain ⟨n, t, h⟩ := reportPhase_state cfg e live s
  rw [h]

theorem livenessPhase_elapsed (cfg : WorkerConfig) (e : IterEnv)
    (s : WorkerState) :
    ((livenessPhase cfg e s).1).elapsed_seconds = s.elapsed_seconds := rfl

theorem reportPhase_raised (cfg : WorkerConfig) (e : IterEnv) (live : Bool)
    (s : WorkerState) (h : e.updateRaises = false) :
    (reportPhase cfg e live s).2.2 = false := by
  unfold reportPhase
  dsimp only
  split_ifs <;> simp [h]

theorem reportPhase_elapsed (cfg : WorkerConfig) (e : IterEnv) (live : Bool)
    (s : WorkerState) :
    ((reportPhase cfg e live s).1).elapsed_seconds =
      (if live then s.elapsed_seconds + 1 else s.elapsed_seconds) := by
  unfold reportPhase
  dsimp only
  split_ifs <;> rfl

theorem viaApiSource_shape (u : Option String) (e : LiveProbeEnv) :
    viaApiSource u e = none ∨ ∃ b, viaApiSource u e = some (b, "browser_api") := by
  unfold viaApiSource
  rcases hu : isTruthyStr u
  · simp
  · rcases e.api with _ | _ | _ | b <;> simp

theorem viaPageSource_shape (u : Option String) (e : LiveProbeEnv) :
    viaPageSource u e = none ∨ ∃ b, viaPageSource u e = some (b, "page_state") := by
  unfold viaPageSource
  rcases hu : isTruthyStr u
  · simp
  · rcases e.pageState with _ | s
    · simp
    · rcases s with _ | s
      · simp
      · by_cases hs : s = ""
        · subst hs
          simp
        · rcases hr : regexSearchIsLive s.toList with _ | b
          all_goals simp only [String.toList] at hr
          · left
            simp [hs, hr]
          · right
            exact ⟨b, by simp [hs, hr]⟩

theorem viaDomSource_shape (e : LiveProbeEnv) :
    viaDomSource e = none ∨ viaDomSource e = some (false, "dom_offline") := by
  unfold viaDomSource
  rcases e.bodyText with _ | body
  · simp
  · simp only []
    split_ifs with hb <;> simp

theorem resolveSources_cases (u : Option String) (c : LiveCache)
    (e : LiveProbeEnv) :
    (∃ b, resolveSources u c e = (b, "browser_api", true)) ∨
    (∃ b, resolveSources u c e = (b, "page_state", true)) ∨
    resolveSources u c e = (false, "dom_offline", true) ∨
    resolveSources u c e = (c.last_live_value, "unknown", false) := by
  unfold resolveSources
  rcases viaApiSource_shape u e with hA | ⟨b, hA⟩
  · rw [hA]
    rcases viaPageSource_shape u e with hP | ⟨b, hP⟩
    · rw [hP]
      rcases viaDomSource_shape e with hD | hD
      · rw [hD]; simp
      · rw [hD]; simp
    · rw [hP]; simp
  · rw [hA]; simp

theorem is_stream_live_miss (u : Option String) (c : LiveCache) (e : LiveProbeEnv)
    (h : ¬ e.now - c.last_live_check < c.live_check_interval) :
    is_stream_live u c e =
      { value := (resolveSources u c e).1
        cache :=
          { last_live_check := e.now
            last_live_value :=
              if (resolveSources u c e).2.2 then (resolveSources u c e).1
              else c.last_live_value
            live_check_interval :=
              max 4 ((if (if (resolveSources u c e).2.2 then
                  (resolveSources u c e).1 else c.last_live_value) then (8 : Int)
                else 5) + e.jitter)
            last_live_source := (resolveSources u c e).2.1 }
        probed := true } := by
  unfold is_stream_live
  rw [if_neg h]

theorem categoryPhase_probe (cfg : WorkerConfig) (e : IterEnv) (live : Bool)
    (s : WorkerState) :
    ((categoryPhase cfg e live s).2.1 = true →
      live = true ∧ e.tCat - s.last_category_check ≥ 30 ∧
      ((categoryPhase cfg e live s).1).last_category_check = e.tCat) ∧
    ((categoryPhase cfg e live s).2.1 = false →
      ((categoryPhase cfg e live s).1).last_category_check =
        s.last_category_check) := by
  unfold categoryPhase
  rcases cfg.required_category_id with _ | req
  · exact ⟨fun h => by simp at h, fun _ => rfl⟩
  · dsimp only
    split_ifs with h1 h2
    · rcases e.categoryResult with _ | cid
      · exact ⟨fun _ => ⟨h1.2, h2, rfl⟩, fun h => by simp at h⟩
      · exact ⟨fun _ => ⟨h1.2, h2, rfl⟩, fun h => by simp at h⟩
    · exact ⟨fun h => by simp at h, fun _ => rfl⟩
    · exact ⟨fun h => by simp at h, fun _ => rfl⟩

theorem stepIter_flags (cfg : WorkerConfig) (e : IterEnv) (s : WorkerState) :
    ((stepIter cfg e s).state.completed = s.completed ∨
      ((stepIter cfg e s).state.completed = true ∧
        (stepIter cfg e s).exit = StepExit.brk ∧
        (stepIter cfg e s).state.ended_because_offline =
          s.ended_because_offline ∧
        (stepIter cfg e s).state.ended_because_wrong_category =
          s.ended_because_wrong_category)) ∧
    ((stepIter cfg e s).exit ≠ StepExit.brk →
      (stepIter cfg e s).state.completed = s.completed ∧
      (stepIter cfg e s).state.ended_because_offline = s.ended_because_offline ∧
      (stepIter cfg e s).state.ended_because_wrong_category =
        s.ended_because_wrong_category) := by
  unfold stepIter
  dsimp only
  set L := livenessPhase cfg e s with hL
  set C := categoryPhase cfg e L.2 L.1 with hC
  set R := reportPhase cfg e L.2 C.1 with hR
  obtain ⟨tc, hcat⟩ : ∃ t, C.1 = { L.1 with last_category_check := t } :=
    categoryPhase_state cfg e L.2 L.1
  obtain ⟨nr, tr, hrep⟩ :
      ∃ n t, R.1 = { C.1 with elapsed_seconds := n, last_report := t } :=
    reportPhase_state cfg e L.2 C.1
  split
  · exact ⟨Or.inl rfl, fun h => absurd rfl h⟩
  · split
    · rw [hcat]
      exact ⟨Or.inl rfl, fun h => absurd rfl h⟩
    · rw [hrep, hcat]
      split
      · exact ⟨Or.inl rfl, fun _ => ⟨rfl, rfl, rfl⟩⟩
      · split
        · exact ⟨Or.inl rfl, fun _ => ⟨rfl, rfl, rfl⟩⟩
        · exact ⟨Or.inr ⟨rfl, rfl, rfl, rfl⟩, fun h => absurd rfl h⟩
        · exact ⟨Or.inl rfl, fun _ => ⟨rfl, rfl, rfl⟩⟩

theorem stepIter_counter (cfg : WorkerConfig) (e : IterEnv) (s : WorkerState) :
    (stepIter cfg e s).state.offline_fresh_checks =
      ((livenessPhase cfg e s).1).offline_fresh_checks := by
  unfold stepIter
  dsimp only
  set L := livenessPhase cfg e s with hL
  set C := categoryPhase cfg e L.2 L.1 with hC
  set R := reportPhase cfg e L.2 C.1 with hR
  obtain ⟨tc, hcat⟩ : ∃ t, C.1 = { L.1 with last_category_check := t } :=
    categoryPhase_state cfg e L.2 L.1
  obtain ⟨nr, tr, hrep⟩ :
      ∃ n t, R.1 = { C.1 with elapsed_seconds := n, last_report := t } :=
    reportPhase_state cfg e L.2 C.1
  split
  · rfl
  · split
    · rw [hcat]
    · rw [hrep, hcat]
      split
      · rfl
      · split <;> rfl

theorem stepIter_category (cfg : WorkerConfig) (e : IterEnv) (s : WorkerState) :
    ((stepIter cfg e s).categoryProbed = true →
      (is_stream_live cfg.username s.live e.probe).value = true ∧
      e.tCat - s.last_category_check ≥ 30 ∧
      (stepIter cfg e s).state.last_category_check = e.tCat) ∧
    ((stepIter cfg e s).categoryProbed = false →
      (stepIter cfg e s).state.last_category_check =
        s.last_category_check) := by
  unfold stepIter
  dsimp only
  set L := livenessPhase cfg e s with hL
  set C := categoryPhase cfg e L.2 L.1 with hC
  set R := reportPhase cfg e L.2 C.1 with hR
  have hprobe := categoryPhase_probe cfg e L.2 L.1
  obtain ⟨nr, tr, hrep⟩ :
      ∃ n t, R.1 = { C.1 with elapsed_seconds := n, last_report := t } :=
    reportPhase_state cfg e L.2 C.1
  have hlive2 : L.2 = (is_stream_live cfg.username s.live e.probe).value := rfl
  have hlast : (L.1).last_category_check = s.last_category_check := rfl
  rw [← hC, hlive2, hlast] at hprobe
  split
  · exact ⟨fun h => by simp at h, fun _ => rfl⟩
  · split
    · exact ⟨fun h => hprobe.1 h, fun h => hprobe.2 h⟩
    · rw [hrep]
      split
      · exact ⟨fun h => hprobe.1 h, fun h => hprobe.2 h⟩
      · split
        · exact ⟨fun h => hprobe.1 h, fun h => hprobe.2 h⟩
        · exact ⟨fun h => hprobe.1 h, fun h => hprobe.2 h⟩
        · exact ⟨fun h => hprobe.1 h, fun h => hprobe.2 h⟩

theorem runLoop_stop (cfg : WorkerConfig) (env : Nat → IterEnv) (fuel i : Nat)
    (s : WorkerState) (h : (env i).stopSet = true) :
    runLoop cfg env (fuel + 1) i s = (LoopExit.stopped, s, []) := by
  unfold runLoop
  rw [if_pos h]

theorem runLoop_brk (cfg : WorkerConfig) (env : Nat → IterEnv) (fuel i : Nat)
    (s : WorkerState) (h : (env i).stopSet = false)
    (hex : (stepIter cfg (env i) s).exit = StepExit.brk) :
    runLoop cfg env (fuel + 1) i s =
      (LoopExit.broke, (stepIter cfg (env i) s).state,
        stepEvents (stepIter cfg (env i) s)) := by
  simp only [runLoop]
  rw [if_neg (by simp [h])]
  rw [hex]

theorem runLoop_exc (cfg : WorkerConfig) (env : Nat → IterEnv) (fuel i : Nat)
    (s : WorkerState) (h : (env i).stopSet = false)
    (hex : (stepIter cfg (env i) s).exit = StepExit.exc) :
    runLoop cfg env (fuel + 1) i s =
      (LoopExit.excd, (stepIter cfg (env i) s).state,
        stepEvents (stepIter cfg (env i) s)) := by
  simp only [runLoop]
  rw [if_neg (by simp [h])]
  rw [hex]

theorem runLoop_cont (cfg : WorkerConfig) (env : Nat → IterEnv) (fuel i : Nat)
    (s : WorkerState) (h : (env i).stopSet = false)
    (hex : (stepIter cfg (env i) s).exit = StepExit.cont) :
    runLoop cfg env (fuel + 1) i s =
      ((runLoop cfg env fuel (i + 1) (stepIter cfg (env i) s).state).1,
        (runLoop cfg env fuel (i + 1) (stepIter cfg (env i) s).state).2.1,
        stepEvents (stepIter cfg (env i) s) ++
          (runLoop cfg env fuel (i + 1) (stepIter cfg (env i) s).state).2.2) := by
  simp only [runLoop]
  rw [if_neg (by simp [h])]
  rw [hex]

theorem stepEvents_no_finish (r : StepResult) :
    ∀ ev ∈ stepEvents r, ev.isFinish = false := by
  unfold stepEvents
  rcases r.progressEvent with _ | ⟨n, l⟩
  · intro ev h; simp at h
  · intro ev h
    simp only [List.mem_singleton] at h
    rw [h]
    rfl

theorem runLoop_no_finish (cfg : WorkerConfig) (env : Nat → IterEnv) :
    ∀ fuel i s, ∀ ev ∈ (runLoop cfg env fuel i s).2.2, ev.isFinish = false := by
  intro fuel
  induction fuel with
  | zero => intro i s ev h; simp [runLoop] at h
  | succ fuel ih =>
    intro i s ev hev
    rcases hstop : (env i).stopSet with _ | _
    · rcases hex : (stepIter cfg (env i) s).exit with _ | _ | _
      · rw [runLoop_cont cfg env fuel i s hstop hex] at hev
        simp only [List.mem_append] at hev
        rcases hev with hev | hev
        · exact stepEvents_no_finish _ ev hev
        · exact ih (i + 1) (stepIter cfg (env i) s).state ev hev
      · rw [runLoop_brk cfg env fuel i s hstop hex] at hev
        exact stepEvents_no_finish _ ev hev
      · rw [runLoop_exc cfg env fuel i s hstop hex] at hev
        exact stepEvents_no_finish _ ev hev
    · rw [runLoop_stop cfg env fuel i s hstop] at hev
      simp at hev

/-- No flag is set at loop entry; the three terminal flags are each set by
exactly one `break` site, so a final `completed = true` implies the loop broke
and the other two flags are still clear. -/
theorem runLoop_completed_flags (cfg : WorkerConfig) (env : Nat → IterEnv) :
    ∀ fuel i s, s.completed = false → s.ended_because_offline = false →
      s.ended_because_wrong_category = false →
      ((runLoop cfg env fuel i s).2.1.completed = true →
        (runLoop cfg env fuel i s).1 = LoopExit.broke ∧
        (runLoop cfg env fuel i s).2.1.ended_because_offline = false ∧
        (runLoop cfg env fuel i s).2.1.ended_because_wrong_category = false) := by
  intro fuel
  induction fuel with
  | zero =>
    intro i s h1 h2 h3 hc
    simp only [runLoop] at hc
    rw [h1] at hc
    exact absurd hc (by simp)
  | succ fuel ih =>
    intro i s h1 h2 h3
    rcases hstop : (env i).stopSet with _ | _
    · have hflags := stepIter_flags cfg (env i) s
      rcases hex : (stepIter cfg (env i) s).exit with _ | _ | _
      · rw [runLoop_cont cfg env fuel i s hstop hex]
        obtain ⟨hc, ho, hw⟩ := hflags.2 (by rw [hex]; intro hcon; cases hcon)
        exact ih (i + 1) (stepIter cfg (env i) s).state
          (hc.trans h1) (ho.trans h2) (hw.trans h3)
      · rw [runLoop_brk cfg env fuel i s hstop hex]
        intro hc
        rcases hflags.1 with heq | ⟨_, _, ho, hw⟩
        · rw [heq, h1] at hc; cases hc
        · exact ⟨rfl, ho.trans h2, hw.trans h3⟩
      · rw [runLoop_exc cfg env fuel i s hstop hex]
        intro hc
        obtain ⟨heq, _, _⟩ := hflags.2 (by rw [hex]; intro hcon; cases hcon)
        rw [heq, h1] at hc
        cases hc
    · rw [runLoop_stop cfg env fuel i s hstop]
      intro hc
      rw [h1] at hc
      cases hc

/-- C1: one terminal callback, after all progress callbacks.  Helper giving
the exact event-list decomposition of a finished run. -/
theorem workerRun_shape (cfg : WorkerConfig) (env : Nat → IterEnv)
    (sf : Bool) (fuel : Nat) (out : RunOutcome)
    (hfin : cfg.has_on_finish = true)
    (hrun : workerRun cfg env sf fuel = some out) :
    (∃ pre, out.events =
        pre ++ [Event.finish out.final.elapsed_seconds out.final.completed] ∧
        ∀ ev ∈ pre, ev.isFinish = false) ∧
    (out.final.completed = true →
      out.exit = LoopExit.broke ∧
      out.final.ended_because_offline = false ∧
      out.final.ended_because_wrong_category = false) := by
  unfold workerRun at hrun
  rcases sf with _ | _
  · rw [if_neg (by simp)] at hrun
    rcases hrec : runLoop cfg env fuel 0 initialWorkerState with ⟨x, s, evs⟩
    rw [hrec] at hrun
    have hflags := runLoop_completed_flags cfg env fuel 0 initialWorkerState
      rfl rfl rfl
    rw [hrec] at hflags
    have hnofin : ∀ ev ∈ evs, ev.isFinish = false := by
      intro ev hev
      have := runLoop_no_finish cfg env fuel 0 initialWorkerState ev
      rw [hrec] at this
      exact this hev
    rcases x with _ | _ | _ | _
    · replace hrun := Option.some_injective _ hrun
      subst hrun
      refine ⟨⟨evs, by simp [finishEvents, hfin], hnofin⟩, fun hc => ?_⟩
      obtain ⟨hx, _, _⟩ := hflags hc
      cases hx
    · replace hrun := Option.some_injective _ hrun
      subst hrun
      exact ⟨⟨evs, by simp [finishEvents, hfin], hnofin⟩, fun hc => hflags hc⟩
    · replace hrun := Option.some_injective _ hrun
      subst hrun
      refine ⟨⟨evs, by simp [finishEvents, hfin], hnofin⟩, fun hc => ?_⟩
      obtain ⟨hx, _, _⟩ := hflags hc
      cases hx
    · cases hrun
  · rw [if_pos rfl] at hrun
    replace hrun := Option.some_injective _ hrun
    subst hrun
    constructor
    · exact ⟨[], by simp [finishEvents, hfin, initialWorkerState], by simp⟩
    · intro hc
      cases hc

/-- When no category id is required, the owner callback does not raise and
`minutes_target` is falsy, the loop body reduces to the liveness phase, the
offline break test and the report phase. -/
theorem stepIter_benign (cfg : WorkerConfig) (e : IterEnv) (s : WorkerState)
    (hreq : cfg.required_category_id = none)
    (hupd : e.updateRaises = false)
    (hmin : cfg.minutes_target = 0) :
    stepIter cfg e s =
      if offlineBreakB cfg (livenessPhase cfg e s).2 (livenessPhase cfg e s).1
          = true then
        { exit := StepExit.brk,
          state :=
            { (livenessPhase cfg e s).1 with ended_because_offline := true },
          progressEvent := none, categoryProbed := false }
      else
        { exit := StepExit.cont,
          state := (reportPhase cfg e (livenessPhase cfg e s).2
            (livenessPhase cfg e s).1).1,
          progressEvent := (reportPhase cfg e (livenessPhase cfg e s).2
            (livenessPhase cfg e s).1).2.1,
          categoryProbed := false } := by
  have hcat : categoryPhase cfg e (livenessPhase cfg e s).2
      (livenessPhase cfg e s).1 = ((livenessPhase cfg e s).1, false, false) := by
    unfold categoryPhase
    rw [hreq]
  have hrep := reportPhase_raised cfg e (livenessPhase cfg e s).2
    (livenessPhase cfg e s).1 hupd
  have hcomp : ∀ st, completionPhase cfg e st = CompletionRes.proceed := by
    intro st
    unfold completionPhase
    rw [hmin]
    simp
  by_cases hob : offlineBreakB cfg (livenessPhase cfg e s).2
      (livenessPhase cfg e s).1 = true
  · rw [if_pos hob]
    unfold stepIter
    dsimp only
    rw [if_pos hob]
  · rw [if_neg hob]
    unfold stepIter
    dsimp only
    rw [if_neg hob, hcat]
    rw [if_neg (by simp), hrep]
    rw [if_neg (by simp), hcomp]

/-- When the completion phase always proceeds, the loop body never sets the
`completed` flag. -/
theorem stepIter_completed_of_proceed (cfg : WorkerConfig) (e : IterEnv)
    (s : WorkerState)
    (hproc : ∀ st, completionPhase cfg e st = CompletionRes.proceed) :
    (stepIter cfg e s).state.completed = s.completed := by
  unfold stepIter
  dsimp only
  set L := livenessPhase cfg e s with hL
  set C := categoryPhase cfg e L.2 L.1 with hC
  set R := reportPhase cfg e L.2 C.1 with hR
  obtain ⟨tc, hcat⟩ : ∃ t, C.1 = { L.1 with last_category_check := t } :=
    categoryPhase_state cfg e L.2 L.1
  obtain ⟨nr, tr, hrep⟩ :
      ∃ n t, R.1 = { C.1 with elapsed_seconds := n, last_report := t } :=
    reportPhase_state cfg e L.2 C.1
  split
  · rfl
  · split
    · rw [hcat]
      rfl
    · rw [hrep, hcat]
      split
      · rfl
      · rw [hproc]
        rfl

/-! ## Claim theorems -/

/-- C1: for every `StreamWorker.run` that finishes — whatever the exit path
(completion break, offline break, wrong-category break, external stop, or an
exception during startup or inside the loop) — the terminal `on_finish`
callback fires exactly once, after every progress callback of the run, and its
`completed` argument is true only when the run terminated through the
completion break (neither offline nor wrong-category flag set). -/
theorem C1_terminal_callback (cfg : WorkerConfig) (env : Nat → IterEnv)
    (sf : Bool) (fuel : Nat) (out : RunOutcome)
    (hfin : cfg.has_on_finish = true)
    (hrun : workerRun cfg env sf fuel = some out) :
    (∃ pre, out.events =
        pre ++ [Event.finish out.final.elapsed_seconds out.final.completed] ∧
        ∀ ev ∈ pre, ev.isFinish = false) ∧
    (out.final.completed = true →
      out.exit = LoopExit.broke ∧
      out.final.ended_because_offline = false ∧
      out.final.ended_because_wrong_category = false) :=
  workerRun_shape cfg env sf fuel out hfin hrun

/-- Quiet probe inputs: every source raises, clock reads inside the initial
cache window. -/
def probeQuiet : LiveProbeEnv :=
  { now := 5, api := ApiOutcome.exc, pageState := PageStateOutcome.exc,
    bodyText := none, jitter := 0 }

def cfgC1w : WorkerConfig :=
  { username := none, minutes_target := 0, offline_fresh_checks_to_switch := 2,
    required_category_id := none, has_cumulative_callback := false,
    has_on_update := true, has_on_finish := true }

def envC1w : Nat → IterEnv := fun _ =>
  { stopSet := true, probe := probeQuiet, tCat := 0, categoryResult := none,
    tRep := 0, tRepSet := 0, updateRaises := false, cumulativeResult := none }

def outC1w : RunOutcome :=
  { events := [Event.finish 0 false], final := initialWorkerState,
    exit := LoopExit.stopped }

theorem C1_terminal_callback_witness :
    (∃ pre, outC1w.events =
        pre ++ [Event.finish outC1w.final.elapsed_seconds outC1w.final.completed] ∧
        ∀ ev ∈ pre, ev.isFinish = false) ∧
    (outC1w.final.completed = true →
      outC1w.exit = LoopExit.broke ∧
      outC1w.final.ended_because_offline = false ∧
      outC1w.final.ended_because_wrong_category = false) :=
  C1_terminal_callback cfgC1w envC1w false 1 outC1w rfl (by decide)

/-- C6: the DOM text heuristic can only assert offline: on a cache miss a
recorded source `"dom_offline"` always comes with value `false`; when the page
text holds no offline marker (and the earlier sources raised) the call falls
through to the previous cached value with source `"unknown"`, leaving the
cached value unchanged; the same cached-value fail-open result occurs when
every source raises; and the constructor initialises the cached value to
`True`. -/
theorem C6_dom_heuristic_fail_open :
    (initialLiveCache.last_live_value = true) ∧
    (∀ u c e, ¬ e.now - c.last_live_check < c.live_check_interval →
      (is_stream_live u c e).cache.last_live_source = "dom_offline" →
      (is_stream_live u c e).value = false) ∧
    (∀ u c e body, ¬ e.now - c.last_live_check < c.live_check_interval →
      e.api = ApiOutcome.exc → e.pageState = PageStateOutcome.exc →
      e.bodyText = some body → domSaysOffline body = false →
      (is_stream_live u c e).value = c.last_live_value ∧
      (is_stream_live u c e).cache.last_live_source = "unknown" ∧
      (is_stream_live u c e).cache.last_live_value = c.last_live_value) ∧
    (∀ u c e, ¬ e.now - c.last_live_check < c.live_check_interval →
      e.api = ApiOutcome.exc → e.pageState = PageStateOutcome.exc →
      e.bodyText = none →
      (is_stream_live u c e).value = c.last_live_value ∧
      (is_stream_live u c e).cache.last_live_source = "unknown") := by
  refine ⟨rfl, ?_, ?_, ?_⟩
  · intro u c e hm hsrc
    rw [is_stream_live_miss u c e hm] at hsrc ⊢
    rcases resolveSources_cases u c e with ⟨b, hr⟩ | ⟨b, hr⟩ | hr | hr
    · rw [hr] at hsrc
      have h2 : ("browser_api" : String) = "dom_offline" := hsrc
      exact absurd h2 (by decide)
    · rw [hr] at hsrc
      have h2 : ("page_state" : String) = "dom_offline" := hsrc
      exact absurd h2 (by decide)
    · rw [hr]
    · rw [hr] at hsrc
      have h2 : ("unknown" : String) = "dom_offline" := hsrc
      exact absurd h2 (by decide)
  · intro u c e body hm hapi hpage hbody hmark
    have hA : viaApiSource u e = none := by simp [viaApiSource, hapi]
    have hP : viaPageSource u e = none := by simp [viaPageSource, hpage]
    have hD : viaDomSource e = none := by simp [viaDomSource, hbody, hmark]
    have hres : resolveSources u c e = (c.last_live_value, "unknown", false) := by
      simp [resolveSources, hA, hP, hD]
    rw [is_stream_live_miss u c e hm, hres]
    exact ⟨rfl, rfl, rfl⟩
  · intro u c e hm hapi hpage hbody
    have hA : viaApiSource u e = none := by simp [viaApiSource, hapi]
    have hP : viaPageSource u e = none := by simp [viaPageSource, hpage]
    have hD : viaDomSource e = none := by simp [viaDomSource, hbody]
    have hres : resolveSources u c e = (c.last_live_value, "unknown", false) := by
      simp [resolveSources, hA, hP, hD]
    rw [is_stream_live_miss u c e hm, hres]
    exact ⟨rfl, rfl⟩

def probeC6dom : LiveProbeEnv :=
  { now := 50, api := ApiOutcome.exc, pageState := PageStateOutcome.exc,
    bodyText := some "The channel is OFFLINE", jitter := 0 }

def probeC6text : LiveProbeEnv :=
  { now := 50, api := ApiOutcome.exc, pageState := PageStateOutcome.exc,
    bodyText := some "just chatting about games", jitter := 0 }

def probeC6exc : LiveProbeEnv :=
  { now := 50, api := ApiOutcome.exc, pageState := PageStateOutcome.exc,
    bodyText := none, jitter := 0 }

theorem C6_dom_heuristic_fail_open_witness :
    ((is_stream_live none initialLiveCache probeC6dom).value = false) ∧
    ((is_stream_live none initialLiveCache probeC6text).value =
        initialLiveCache.last_live_value ∧
      (is_stream_live none initialLiveCache probeC6text).cache.last_live_source =
        "unknown" ∧
      (is_stream_live none initialLiveCache probeC6text).cache.last_live_value =
        initialLiveCache.last_live_value) ∧
    ((is_stream_live none initialLiveCache probeC6exc).value =
        initialLiveCache.last_live_value ∧
      (is_stream_live none initialLiveCache probeC6exc).cache.last_live_source =
        "unknown") :=
  ⟨C6_dom_heuristic_fail_open.2.1 none initialLiveCache probeC6dom (by decide)
      (by decide),
   C6_dom_heuristic_fail_open.2.2.1 none initialLiveCache probeC6text
      "just chatting about games" (by decide) rfl rfl rfl (by decide),
   C6_dom_heuristic_fail_open.2.2.2 none initialLiveCache probeC6exc (by decide)
      rfl rfl rfl⟩

/-- The embedded page-state text of the C7 scenario: ordinary JSON holding an
`is_live` field set to `true`. -/
def stateTextC7 : String := "\x7b\"is_live\":true\x7d"

def cacheC7 : LiveCache :=
  { last_live_check := 0, last_live_value := false, live_check_interval := 10,
    last_live_source := "unknown" }

def probeC7 : LiveProbeEnv :=
  { now := 100, api := ApiOutcome.exc,
    pageState := PageStateOutcome.ret (some stateTextC7),
    bodyText := some "", jitter := 0 }

/-- C7 (code bug): the page-state source's compiled regex — the raw string
`r"\"is_live\"\\s*:\\s*(true|false)"` — demands a literal backslash on each
side of the colon, so it matches no ordinary JSON text.  A state text that
plainly contains `"is_live":true` yields no match, the source never fires, and
the call falls through past it (here to the cached value `false`, source
`"unknown"`), contradicting the specified page-state parse.  The last conjunct
exhibits the only kind of text the compiled pattern accepts. -/
theorem C7_page_state_source_dead :
    containsSub "\"is_live\":true" stateTextC7 = true ∧
    regexSearchIsLive stateTextC7.toList = none ∧
    regexSearchIsLive ("\"is_live\": true").toList = none ∧
    regexSearchIsLive ("\"is_live\"\\:\\true").toList = some true ∧
    (is_stream_live (some "streamer") cacheC7 probeC7).cache.last_live_source =
      "unknown" ∧
    (is_stream_live (some "streamer") cacheC7 probeC7).value = false := by
  decide

/-- C9: a call made while `now - last_check_time` is below the cached interval
returns exactly the cached value, consults no probe source, and leaves every
cache field unchanged. -/
theorem C9_cached_window (u : Option String) (c : LiveCache) (e : LiveProbeEnv)
    (h : e.now - c.last_live_check < c.live_check_interval) :
    is_stream_live u c e =
      { value := c.last_live_value, cache := c, probed := false } :=
  is_stream_live_hit u c e h

def probeC9w : LiveProbeEnv :=
  { now := 5, api := ApiOutcome.ok true, pageState := PageStateOutcome.exc,
    bodyText := none, jitter := 2 }

theorem C9_cached_window_witness :
    is_stream_live (some "streamer") initialLiveCache probeC9w =
      { value := true, cache := initialLiveCache, probed := false } :=
  C9_cached_window (some "streamer") initialLiveCache probeC9w (by decide)

/-- C2: with `offline_fresh_checks_to_switch = 2`, a single fresh not-live
probe does not end the iteration (counter reaches 1, offline flag untouched);
a second consecutive fresh not-live probe breaks the loop with
`ended_because_offline`; a fresh live probe resets the counter to zero; and a
cached (non-fresh) read never changes the counter. -/
theorem C2_offline_promotion_threshold :
    (∀ cfg e s, cfg.offline_fresh_checks_to_switch = 2 →
      s.offline_fresh_checks = 0 →
      0 < s.live.live_check_interval →
      ¬ e.probe.now - s.live.last_live_check < s.live.live_check_interval →
      (is_stream_live cfg.username s.live e.probe).value = false →
      cfg.required_category_id = none → cfg.minutes_target = 0 →
      e.updateRaises = false →
      (stepIter cfg e s).exit = StepExit.cont ∧
      (stepIter cfg e s).state.offline_fresh_checks = 1 ∧
      (stepIter cfg e s).state.ended_because_offline =
        s.ended_because_offline) ∧
    (∀ cfg e s, cfg.offline_fresh_checks_to_switch = 2 →
      s.offline_fresh_checks = 1 →
      0 < s.live.live_check_interval →
      ¬ e.probe.now - s.live.last_live_check < s.live.live_check_interval →
      (is_stream_live cfg.username s.live e.probe).value = false →
      (stepIter cfg e s).exit = StepExit.brk ∧
      (stepIter cfg e s).state.ended_because_offline = true) ∧
    (∀ cfg e s, 0 < s.live.live_check_interval →
      ¬ e.probe.now - s.live.last_live_check < s.live.live_check_interval →
      (is_stream_live cfg.username s.live e.probe).value = true →
      (stepIter cfg e s).state.offline_fresh_checks = 0) ∧
    (∀ cfg e s, e.probe.now - s.live.last_live_check < s.live.live_check_interval →
      (stepIter cfg e s).state.offline_fresh_checks = s.offline_fresh_checks) := by
  refine ⟨?_, ?_, ?_, ?_⟩
  · intro cfg e s hth hzero hpos hm hval hreq hmin hupd
    have hlp : livenessPhase cfg e s =
        ({ s with live := (is_stream_live cfg.username s.live e.probe).cache,
                  offline_fresh_checks := 1 }, false) := by
      rw [livenessPhase_miss cfg e s hm hpos, hval, hzero]
      simp
    rw [stepIter_benign cfg e s hreq hupd hmin, hlp]
    rw [if_neg (by simp [offlineBreakB, hth])]
    refine ⟨rfl, ?_, ?_⟩
    · rw [reportPhase_counter]
    · rw [reportPhase_offline_flag]
  · intro cfg e s hth hone hpos hm hval
    have hlp : livenessPhase cfg e s =
        ({ s with live := (is_stream_live cfg.username s.live e.probe).cache,
                  offline_fresh_checks := 2 }, false) := by
      rw [livenessPhase_miss cfg e s hm hpos, hval, hone]
      simp
    unfold stepIter
    dsimp only
    rw [hlp]
    rw [if_pos (by simp [offlineBreakB, hth])]
    exact ⟨rfl, rfl⟩
  · intro cfg e s hpos hm hval
    rw [stepIter_counter, livenessPhase_miss cfg e s hm hpos, hval]
    simp
  · intro cfg e s hhit
    rw [stepIter_counter, livenessPhase_hit cfg e s hhit]

def cfgC2w : WorkerConfig :=
  { username := none, minutes_target := 0, offline_fresh_checks_to_switch := 2,
    required_category_id := none, has_cumulative_callback := false,
    has_on_update := true, has_on_finish := true }

def probeC2off : LiveProbeEnv :=
  { now := 20, api := ApiOutcome.exc, pageState := PageStateOutcome.exc,
    bodyText := some "STREAM IS OFFLINE", jitter := 0 }

def probeC2live : LiveProbeEnv :=
  { now := 20, api := ApiOutcome.exc, pageState := PageStateOutcome.exc,
    bodyText := some "all good", jitter := 0 }

def eC2off : IterEnv :=
  { stopSet := false, probe := probeC2off, tCat := 0, categoryResult := none,
    tRep := 0, tRepSet := 0, updateRaises := false, cumulativeResult := none }

def eC2live : IterEnv :=
  { stopSet := false, probe := probeC2live, tCat := 0, categoryResult := none,
    tRep := 0, tRepSet := 0, updateRaises := false, cumulativeResult := none }

def eC2hit : IterEnv :=
  { stopSet := false, probe := probeQuiet, tCat := 0, categoryResult := none,
    tRep := 0, tRepSet := 0, updateRaises := false, cumulativeResult := none }

def sC2one : WorkerState :=
  { initialWorkerState with offline_fresh_checks := 1 }

theorem C2_offline_promotion_threshold_witness :
    ((stepIter cfgC2w eC2off initialWorkerState).exit = StepExit.cont ∧
      (stepIter cfgC2w eC2off initialWorkerState).state.offline_fresh_checks = 1 ∧
      (stepIter cfgC2w eC2off initialWorkerState).state.ended_because_offline =
        initialWorkerState.ended_because_offline) ∧
    ((stepIter cfgC2w eC2off sC2one).exit = StepExit.brk ∧
      (stepIter cfgC2w eC2off sC2one).state.ended_because_offline = true) ∧
    ((stepIter cfgC2w eC2live sC2one).state.offline_fresh_checks = 0) ∧
    ((stepIter cfgC2w eC2hit sC2one).state.offline_fresh_checks =
      sC2one.offline_fresh_checks) :=
  ⟨C2_offline_promotion_threshold.1 cfgC2w eC2off initialWorkerState rfl rfl
      (by decide) (by decide) (by decide) rfl rfl rfl,
   C2_offline_promotion_threshold.2.1 cfgC2w eC2off sC2one rfl rfl
      (by decide) (by decide) (by decide),
   C2_offline_promotion_threshold.2.2.1 cfgC2w eC2live sC2one
      (by decide) (by decide) (by decide),
   C2_offline_promotion_threshold.2.2.2 cfgC2w eC2hit sC2one (by decide)⟩

/-- C3: with a non-zero target and the cumulative accessor supplied, the loop
breaks with `completed` on the first tick whose accessor value reaches
`minutes_target * 60` (a smaller value leaves the loop running with the flag
unchanged); without the accessor it breaks once its own `elapsed_seconds`
(incremented this tick while live) reaches the target; and with
`minutes_target = 0` no iteration ever sets `completed`. -/
theorem C3_completion_check :
    (∀ cfg e s cv, cfg.minutes_target ≠ 0 → cfg.has_cumulative_callback = true →
      e.cumulativeResult = some cv → (cfg.minutes_target : Int) * 60 ≤ cv →
      (is_stream_live cfg.username s.live e.probe).value = true →
      cfg.required_category_id = none → e.updateRaises = false →
      (stepIter cfg e s).exit = StepExit.brk ∧
      (stepIter cfg e s).state.completed = true) ∧
    (∀ cfg e s cv, cfg.minutes_target ≠ 0 → cfg.has_cumulative_callback = true →
      e.cumulativeResult = some cv → cv < (cfg.minutes_target : Int) * 60 →
      (is_stream_live cfg.username s.live e.probe).value = true →
      cfg.required_category_id = none → e.updateRaises = false →
      (stepIter cfg e s).exit = StepExit.cont ∧
      (stepIter cfg e s).state.completed = s.completed) ∧
    (∀ cfg e s, cfg.minutes_target ≠ 0 → cfg.has_cumulative_callback = false →
      (is_stream_live cfg.username s.live e.probe).value = true →
      cfg.required_category_id = none → e.updateRaises = false →
      cfg.minutes_target * 60 ≤ s.elapsed_seconds + 1 →
      (stepIter cfg e s).exit = StepExit.brk ∧
      (stepIter cfg e s).state.completed = true ∧
      (stepIter cfg e s).state.elapsed_seconds = s.elapsed_seconds + 1) ∧
    (∀ cfg e s, cfg.minutes_target ≠ 0 → cfg.has_cumulative_callback = false →
      (is_stream_live cfg.username s.live e.probe).value = true →
      cfg.required_category_id = none → e.updateRaises = false →
      s.elapsed_seconds + 1 < cfg.minutes_target * 60 →
      (stepIter cfg e s).exit = StepExit.cont ∧
      (stepIter cfg e s).state.completed = s.completed) ∧
    (∀ cfg e s, cfg.minutes_target = 0 →
      (stepIter cfg e s).state.completed = s.completed) := by
  refine ⟨?_, ?_, ?_, ?_, ?_⟩
  · intro cfg e s cv hmin hcum hcv hge hlive hreq hupd
    have hl2 : (livenessPhase cfg e s).2 = true := hlive
    have hcat : categoryPhase cfg e (livenessPhase cfg e s).2
        (livenessPhase cfg e s).1 = ((livenessPhase cfg e s).1, false, false) := by
      unfold categoryPhase
      rw [hreq]
    have hrep := reportPhase_raised cfg e (livenessPhase cfg e s).2
      (livenessPhase cfg e s).1 hupd
    have hcomp : ∀ st, completionPhase cfg e st = CompletionRes.finishBrk := by
      intro st
      unfold completionPhase
      rw [if_pos hmin, if_pos hcum, hcv]
      dsimp only
      rw [if_pos hge]
    unfold stepIter
    dsimp only
    rw [if_neg (by simp [offlineBreakB, hl2])]
    rw [hcat]
    rw [if_neg (by simp), hrep]
    rw [if_neg (by simp), hcomp]
    exact ⟨rfl, rfl⟩
  · intro cfg e s cv hmin hcum hcv hlt hlive hreq hupd
    have hl2 : (livenessPhase cfg e s).2 = true := hlive
    have hcat : categoryPhase cfg e (livenessPhase cfg e s).2
        (livenessPhase cfg e s).1 = ((livenessPhase cfg e s).1, false, false) := by
      unfold categoryPhase
      rw [hreq]
    have hrep := reportPhase_raised cfg e (livenessPhase cfg e s).2
      (livenessPhase cfg e s).1 hupd
    have hcomp : ∀ st, completionPhase cfg e st = CompletionRes.proceed := by
      intro st
      unfold completionPhase
      rw [if_pos hmin, if_pos hcum, hcv]
      dsimp only
      rw [if_neg (not_le.mpr hlt)]
    unfold stepIter
    dsimp only
    rw [if_neg (by simp [offlineBreakB, hl2])]
    rw [hcat]
    rw [if_neg (by simp), hrep]
    rw [if_neg (by simp), hcomp]
    refine ⟨rfl, ?_⟩
    rw [reportPhase_completed_eq]
    rfl
  · intro cfg e s hmin hcum hlive hreq hupd hge
    have hl2 : (livenessPhase cfg e s).2 = true := hlive
    have hcat : categoryPhase cfg e (livenessPhase cfg e s).2
        (livenessPhase cfg e s).1 = ((livenessPhase cfg e s).1, false, false) := by
      unfold categoryPhase
      rw [hreq]
    have hrep := reportPhase_raised cfg e (livenessPhase cfg e s).2
      (livenessPhase cfg e s).1 hupd
    have helap : ((reportPhase cfg e (livenessPhase cfg e s).2
        (livenessPhase cfg e s).1).1).elapsed_seconds = s.elapsed_seconds + 1 := by
      rw [reportPhase_elapsed, hl2]
      simp [livenessPhase_elapsed]
    have hcomp : completionPhase cfg e
        ((reportPhase cfg e (livenessPhase cfg e s).2
          (livenessPhase cfg e s).1).1) = CompletionRes.finishBrk := by
      unfold completionPhase
      rw [if_pos hmin, if_neg (by simp [hcum]), helap, if_pos hge]
    unfold stepIter
    dsimp only
    rw [if_neg (by simp [offlineBreakB, hl2])]
    rw [hcat]
    rw [if_neg (by simp), hrep]
    rw [if_neg (by simp), hcomp]
    exact ⟨rfl, rfl, helap⟩
  · intro cfg e s hmin hcum hlive hreq hupd hlt
    have hl2 : (livenessPhase cfg e s).2 = true := hlive
    have hcat : categoryPhase cfg e (livenessPhase cfg e s).2
        (livenessPhase cfg e s).1 = ((livenessPhase cfg e s).1, false, false) := by
      unfold categoryPhase
      rw [hreq]
    have hrep := reportPhase_raised cfg e (livenessPhase cfg e s).2
      (livenessPhase cfg e s).1 hupd
    have helap : ((reportPhase cfg e (livenessPhase cfg e s).2
        (livenessPhase cfg e s).1).1).elapsed_seconds = s.elapsed_seconds + 1 := by
      rw [reportPhase_elapsed, hl2]
      simp [livenessPhase_elapsed]
    have hcomp : completionPhase cfg e
        ((reportPhase cfg e (livenessPhase cfg e s).2
          (livenessPhase cfg e s).1).1) = CompletionRes.proceed := by
      unfold completionPhase
      rw [if_pos hmin, if_neg (by simp [hcum]), helap, if_neg (not_le.mpr hlt)]
    unfold stepIter
    dsimp only
    rw [if_neg (by simp [offlineBreakB, hl2])]
    rw [hcat]
    rw [if_neg (by simp), hrep]
    rw [if_neg (by simp), hcomp]
    refine ⟨rfl, ?_⟩
    rw [reportPhase_completed_eq]
    rfl
  · intro cfg e s hmin
    exact stepIter_completed_of_proceed cfg e s (fun st => by
      unfold completionPhase
      rw [hmin]
      simp)

def cfgC3cum : WorkerConfig :=
  { username := none, minutes_target := 10, offline_fresh_checks_to_switch := 2,
    required_category_id := none, has_cumulative_callback := true,
    has_on_update := true, has_on_finish := true }

def cfgC3ind : WorkerConfig :=
  { username := none, minutes_target := 1, offline_fresh_checks_to_switch := 2,
    required_category_id := none, has_cumulative_callback := false,
    has_on_update := true, has_on_finish := true }

def eC3x600 : IterEnv :=
  { stopSet := false, probe := probeQuiet, tCat := 0, categoryResult := none,
    tRep := 0, tRepSet := 0, updateRaises := false, cumulativeResult := some 600 }

def eC3x550 : IterEnv :=
  { stopSet := false, probe := probeQuiet, tCat := 0, categoryResult := none,
    tRep := 0, tRepSet := 0, updateRaises := false, cumulativeResult := some 550 }

def sC3fiftynine : WorkerState :=
  { initialWorkerState with elapsed_seconds := 59 }

theorem C3_completion_check_witness :
    ((stepIter cfgC3cum eC3x600 initialWorkerState).exit = StepExit.brk ∧
      (stepIter cfgC3cum eC3x600 initialWorkerState).state.completed = true) ∧
    ((stepIter cfgC3cum eC3x550 initialWorkerState).exit = StepExit.cont ∧
      (stepIter cfgC3cum eC3x550 initialWorkerState).state.completed =
        initialWorkerState.completed) ∧
    ((stepIter cfgC3ind eC3x550 sC3fiftynine).exit = StepExit.brk ∧
      (stepIter cfgC3ind eC3x550 sC3fiftynine).state.completed = true ∧
      (stepIter cfgC3ind eC3x550 sC3fiftynine).state.elapsed_seconds =
        sC3fiftynine.elapsed_seconds + 1) ∧
    ((stepIter cfgC3ind eC3x550 initialWorkerState).exit = StepExit.cont ∧
      (stepIter cfgC3ind eC3x550 initialWorkerState).state.completed =
        initialWorkerState.completed) ∧
    ((stepIter cfgC2w eC2hit sC2one).state.completed = sC2one.completed) :=
  ⟨C3_completion_check.1 cfgC3cum eC3x600 initialWorkerState 600 (by decide) rfl
      rfl (by decide) (by decide) rfl rfl,
   C3_completion_check.2.1 cfgC3cum eC3x550 initialWorkerState 550 (by decide)
      rfl rfl (by decide) (by decide) rfl rfl,
   C3_completion_check.2.2.1 cfgC3ind eC3x550 sC3fiftynine (by decide) rfl
      (by decide) rfl rfl (by decide),
   C3_completion_check.2.2.2.1 cfgC3ind eC3x550 initialWorkerState (by decide)
      rfl (by decide) rfl rfl (by decide),
   C3_completion_check.2.2.2.2 cfgC2w eC2hit sC2one rfl⟩

/-- C8: while live and with a required category id set, a probe answer with a
different non-null id breaks the loop with `ended_because_wrong_category`; a
`None` answer (unavailable or errored) leaves the loop running with the flag
unchanged; and the probe runs only when the channel is live and at least 30
seconds have passed since the recorded last check, whose timestamp it then
updates (so probes are at least 30 seconds apart). -/
theorem C8_category_monitor :
    (∀ cfg e s rq, cfg.required_category_id = some rq → rq ≠ 0 →
      (is_stream_live cfg.username s.live e.probe).value = true →
      e.tCat - s.last_category_check ≥ 30 →
      ∀ cid, e.categoryResult = some cid → cid ≠ rq →
      (stepIter cfg e s).exit = StepExit.brk ∧
      (stepIter cfg e s).state.ended_because_wrong_category = true) ∧
    (∀ cfg e s rq, cfg.required_category_id = some rq → rq ≠ 0 →
      (is_stream_live cfg.username s.live e.probe).value = true →
      e.tCat - s.last_category_check ≥ 30 →
      e.categoryResult = none →
      cfg.minutes_target = 0 → e.updateRaises = false →
      (stepIter cfg e s).exit = StepExit.cont ∧
      (stepIter cfg e s).state.ended_because_wrong_category =
        s.ended_because_wrong_category) ∧
    (∀ cfg e s, (stepIter cfg e s).categoryProbed = true →
      (is_stream_live cfg.username s.live e.probe).value = true ∧
      e.tCat - s.last_category_check ≥ 30 ∧
      (stepIter cfg e s).state.last_category_check = e.tCat) ∧
    (∀ cfg e s, (stepIter cfg e s).categoryProbed = false →
      (stepIter cfg e s).state.last_category_check =
        s.last_category_check) := by
  refine ⟨?_, ?_, fun cfg e s => (stepIter_category cfg e s).1,
    fun cfg e s => (stepIter_category cfg e s).2⟩
  · intro cfg e s rq hreq hrq hlive hdue cid hcid hne
    have hl2 : (livenessPhase cfg e s).2 = true := hlive
    have hcat : categoryPhase cfg e (livenessPhase cfg e s).2
        (livenessPhase cfg e s).1 =
        ({ (livenessPhase cfg e s).1 with last_category_check := e.tCat },
          true, true) := by
      unfold categoryPhase
      rw [hreq]
      dsimp only
      have hdue2 : e.tCat - ((livenessPhase cfg e s).1).last_category_check ≥ 30 :=
        hdue
      rw [if_pos ⟨hrq, hl2⟩, if_pos hdue2, hcid]
      simp [hne]
    unfold stepIter
    dsimp only
    rw [if_neg (by simp [offlineBreakB, hl2])]
    rw [hcat]
    rw [if_pos rfl]
    exact ⟨rfl, rfl⟩
  · intro cfg e s rq hreq hrq hlive hdue hcid hmin hupd
    have hl2 : (livenessPhase cfg e s).2 = true := hlive
    have hcat : categoryPhase cfg e (livenessPhase cfg e s).2
        (livenessPhase cfg e s).1 =
        ({ (livenessPhase cfg e s).1 with last_category_check := e.tCat },
          true, false) := by
      unfold categoryPhase
      rw [hreq]
      dsimp only
      have hdue2 : e.tCat - ((livenessPhase cfg e s).1).last_category_check ≥ 30 :=
        hdue
      rw [if_pos ⟨hrq, hl2⟩, if_pos hdue2, hcid]
    have hrep := reportPhase_raised cfg e (livenessPhase cfg e s).2
      ({ (livenessPhase cfg e s).1 with last_category_check := e.tCat }) hupd
    have hcomp : ∀ st, completionPhase cfg e st = CompletionRes.proceed := by
      intro st
      unfold completionPhase
      rw [hmin]
      simp
    unfold stepIter
    dsimp only
    rw [if_neg (by simp [offlineBreakB, hl2])]
    rw [hcat]
    rw [if_neg (by simp), hrep]
    rw [if_neg (by simp), hcomp]
    refine ⟨rfl, ?_⟩
    rw [reportPhase_wrongcat_eq]
    rfl

def cfgC8 : WorkerConfig :=
  { username := none, minutes_target := 0, offline_fresh_checks_to_switch := 2,
    required_category_id := some 5, has_cumulative_callback := false,
    has_on_update := true, has_on_finish := true }

def eC8mis : IterEnv :=
  { stopSet := false, probe := probeQuiet, tCat := 40, categoryResult := some 7,
    tRep := 0, tRepSet := 0, updateRaises := false, cumulativeResult := none }

def eC8none : IterEnv :=
  { stopSet := false, probe := probeQuiet, tCat := 40, categoryResult := none,
    tRep := 0, tRepSet := 0, updateRaises := false, cumulativeResult := none }

theorem C8_category_monitor_witness :
    ((stepIter cfgC8 eC8mis initialWorkerState).exit = StepExit.brk ∧
      (stepIter cfgC8 eC8mis
        initialWorkerState).state.ended_because_wrong_category = true) ∧
    ((stepIter cfgC8 eC8none initialWorkerState).exit = StepExit.cont ∧
      (stepIter cfgC8 eC8none
          initialWorkerState).state.ended_because_wrong_category =
        initialWorkerState.ended_because_wrong_category) ∧
    ((is_stream_live cfgC8.username initialWorkerState.live eC8mis.probe).value =
        true ∧
      eC8mis.tCat - initialWorkerState.last_category_check ≥ 30 ∧
      (stepIter cfgC8 eC8mis initialWorkerState).state.last_category_check =
        eC8mis.tCat) ∧
    ((stepIter cfgC2w eC2hit sC2one).state.last_category_check =
      sC2one.last_category_check) :=
  ⟨C8_category_monitor.1 cfgC8 eC8mis initialWorkerState 5 rfl (by decide)
      (by decide) (by decide) 7 rfl (by decide),
   C8_category_monitor.2.1 cfgC8 eC8none initialWorkerState 5 rfl (by decide)
      (by decide) (by decide) rfl rfl rfl,
   C8_category_monitor.2.2.1 cfgC8 eC8mis initialWorkerState (by decide),
   C8_category_monitor.2.2.2 cfgC2w eC2hit sC2one (by decide)⟩

def cfgC4 : WorkerConfig :=
  { username := none, minutes_target := 10, offline_fresh_checks_to_switch := 2,
    required_category_id := none, has_cumulative_callback := true,
    has_on_update := true, has_on_finish := true }

/-- The stop flag becomes set between the top-of-loop check of iteration 0 and
that of iteration 1 (i.e. mid-iteration-0), while iteration 0's cumulative
completion check is simultaneously satisfied (600 seconds ≥ 10 minutes). -/
def envC4 : Nat → IterEnv := fun i =>
  { stopSet := decide (1 ≤ i), probe := probeQuiet, tCat := 0,
    categoryResult := none, tRep := 100, tRepSet := 100, updateRaises := false,
    cumulativeResult := some 600 }

def outC4 : RunOutcome :=
  { events := [Event.progress 1 true, Event.finish 1 true],
    final := { initialWorkerState with
               elapsed_seconds := 1, completed := true, last_report := 100 },
    exit := LoopExit.broke }

/-- C4 counterexample: the stop flag reads false at the top of iteration 0 and
true from iteration 1 on — it was set mid-iteration-0 — yet because another
terminal condition (the cumulative completion check of the iteration already
in progress) is pending, the run terminates with `completed = true` via the
completion break, not with reason stopped: the claim's "terminates with reason
stopped … even when another terminal condition is simultaneously pending" is
false on the code. -/
theorem C4_counterexample :
    (envC4 0).stopSet = false ∧ (envC4 1).stopSet = true ∧
    workerRun cfgC4 envC4 false 2 = some outC4 ∧
    outC4.exit = LoopExit.broke ∧ outC4.exit ≠ LoopExit.stopped ∧
    outC4.final.completed = true := by
  decide

/-- C4 (amended): the stop flag is honoured at the top of each loop iteration:
if it is set mid-iteration (false at the top of iteration `i`, true at
iteration `i + 1`) and the in-progress iteration hits no terminal condition of
its own, the loop exits at the very next top-of-loop check — within one
iteration — with exit `stopped` and no terminal flag set; a terminal condition
pending in the in-progress iteration fires first and determines the reason
instead. -/
theorem C4_stop_at_loop_top (cfg : WorkerConfig) (env : Nat → IterEnv)
    (fuel i : Nat) (s : WorkerState)
    (h0 : (env i).stopSet = false)
    (h1 : (env (i + 1)).stopSet = true)
    (hc : (stepIter cfg (env i) s).exit = StepExit.cont) :
    runLoop cfg env (fuel + 2) i s =
      (LoopExit.stopped, (stepIter cfg (env i) s).state,
        stepEvents (stepIter cfg (env i) s)) ∧
    (s.completed = false → s.ended_because_offline = false →
      s.ended_because_wrong_category = false →
      (stepIter cfg (env i) s).state.completed = false ∧
      (stepIter cfg (env i) s).state.ended_because_offline = false ∧
      (stepIter cfg (env i) s).state.ended_because_wrong_category = false) := by
  constructor
  · rw [runLoop_cont cfg env (fuel + 1) i s h0 hc]
    rw [runLoop_stop cfg env fuel (i + 1) (stepIter cfg (env i) s).state h1]
    simp
  · intro hf1 hf2 hf3
    obtain ⟨hcp, ho, hw⟩ := (stepIter_flags cfg (env i) s).2
      (by rw [hc]; intro hcon; cases hcon)
    exact ⟨hcp.trans hf1, ho.trans hf2, hw.trans hf3⟩

def envC4w : Nat → IterEnv := fun i =>
  if i = 0 then eC2hit else { eC2hit with stopSet := true }

theorem C4_stop_at_loop_top_witness :
    (runLoop cfgC2w envC4w 2 0 sC2one =
      (LoopExit.stopped, (stepIter cfgC2w (envC4w 0) sC2one).state,
        stepEvents (stepIter cfgC2w (envC4w 0) sC2one))) ∧
    (sC2one.completed = false → sC2one.ended_because_offline = false →
      sC2one.ended_because_wrong_category = false →
      (stepIter cfgC2w (envC4w 0) sC2one).state.completed = false ∧
      (stepIter cfgC2w (envC4w 0) sC2one).state.ended_because_offline = false ∧
      (stepIter cfgC2w (envC4w 0) sC2one).state.ended_because_wrong_category =
        false) :=
  C4_stop_at_loop_top cfgC2w envC4w 0 0 sC2one rfl rfl (by decide)

theorem scanChannels_eq_find (isLive : String → Bool) (current : String)
    (tried : List String) :
    ∀ channels, scanChannels isLive current tried channels =
      channels.find? (fun ch => decide (ch ≠ "") && decide (ch ≠ current) &&
        decide (ch ∉ tried) && isLive ch)
  | [] => rfl
  | ch :: rest => by
    unfold scanChannels
    by_cases h : ch ≠ "" ∧ ch ≠ current ∧ ch ∉ tried ∧ isLive ch = true
    · rw [if_pos h, List.find?_cons_of_pos _
        (by simp [h.1, h.2.1, h.2.2.1, h.2.2.2])]
    · rw [if_neg h, List.find?_cons_of_neg _ (by
        simp only [Bool.and_eq_true, decide_eq_true_eq]
        intro hcon
        exact h ⟨hcon.1.1.1, hcon.1.1.2, hcon.1.2, hcon.2⟩),
        scanChannels_eq_find isLive current tried rest]

theorem mem_triedWithCurrent (tried : List String) (current : String) :
    current ∈ triedWithCurrent tried current := by
  unfold triedWithCurrent
  split_ifs with h
  · exact h
  · simp

/-- C5: the fallback scan of `on_worker_finish`.  (1) Under the data-model
invariants (no duplicate channels, no duplicate tried entries, no empty
addresses, tried entries drawn from the candidate set), the code's
length-based exhaustion test fires exactly when the tried set covers the whole
candidate set, and firing empties it before the scan.  (2) The selected
channel is the first stored channel that is non-empty, distinct from the
current one, untried after the optional reset, and reported live — and it is
appended to the tried list.  (3) With no live candidate nothing is selected
and the tried list is exactly the post-append (not scan-cleared) list.
(4) The spec's concrete example: siblings `[A, B, C]`, tried `[A]`, only `C`
live, yields `C` and tried `[A, C]`. -/
theorem C5_fallback_next_channel :
    (∀ current (channels tried : List String),
      channels.Nodup → tried.Nodup → "" ∉ channels →
      triedWithCurrent tried current ⊆ allChannelUrls channels current →
      (allChannelUrls channels current ⊆ triedWithCurrent tried current ↔
        triedAfterReset channels current tried = [])) ∧
    (∀ isLive current channels tried,
      nextChannel isLive current channels tried =
        match channels.find? (fun ch => decide (ch ≠ "") &&
            decide (ch ≠ current) &&
            decide (ch ∉ triedAfterReset channels current tried) &&
            isLive ch) with
        | some ch => (some ch, triedAfterReset channels current tried ++ [ch])
        | none => (none, triedAfterReset channels current tried)) ∧
    (∀ isLive current channels tried,
      (∀ ch ∈ channels, isLive ch = false) →
      nextChannel isLive current channels tried =
        (none, triedAfterReset channels current tried)) ∧
    (nextChannel (fun c => c == "C") "A" ["A", "B", "C"] ["A"] =
      (some "C", ["A", "C"])) := by
  refine ⟨?_, ?_, ?_, by decide⟩
  · intro current channels tried hchN htrN hne hsub
    have hTnodup : (triedWithCurrent tried current).Nodup := by
      unfold triedWithCurrent
      split_ifs with hmem
      · exact htrN
      · simp [List.nodup_append, htrN, hmem]
    have hAnodup : (allChannelUrls channels current).Nodup := by
      unfold allChannelUrls
      have hf : (channels.filter (fun c => c ≠ "")).Nodup := hchN.filter _
      dsimp only
      split_ifs with hmem
      · exact hf
      · refine List.Nodup.append hf (List.nodup_singleton _) ?_
        intro a ha hb
        simp only [List.mem_singleton] at hb
        subst hb
        exact hmem ha
    constructor
    · intro hcov
      have hlen : (allChannelUrls channels current).length ≤
          (triedWithCurrent tried current).length := by
        calc (allChannelUrls channels current).length
            = (allChannelUrls channels current).toFinset.card :=
              (List.toFinset_card_of_nodup hAnodup).symm
          _ ≤ (triedWithCurrent tried current).toFinset.card :=
              Finset.card_le_card (fun x hx => List.mem_toFinset.mpr
                (hcov (List.mem_toFinset.mp hx)))
          _ ≤ (triedWithCurrent tried current).length :=
              List.toFinset_card_le _
      unfold triedAfterReset
      rw [if_pos hlen]
    · intro hempty
      unfold triedAfterReset at hempty
      by_cases hlen : (triedWithCurrent tried current).length ≥
          (allChannelUrls channels current).length
      · have h1 : (triedWithCurrent tried current).toFinset ⊆
            (allChannelUrls channels current).toFinset :=
          fun x hx => List.mem_toFinset.mpr (hsub (List.mem_toFinset.mp hx))
        have h2 : (allChannelUrls channels current).toFinset.card ≤
            (triedWithCurrent tried current).toFinset.card := by
          rw [List.toFinset_card_of_nodup hTnodup,
            List.toFinset_card_of_nodup hAnodup]
          exact hlen
        have h3 : (triedWithCurrent tried current).toFinset =
            (allChannelUrls channels current).toFinset :=
          Finset.eq_of_subset_of_card_le h1 h2
        intro x hx
        exact List.mem_toFinset.mp (h3 ▸ List.mem_toFinset.mpr hx)
      · rw [if_neg hlen] at hempty
        exact absurd (hempty ▸ mem_triedWithCurrent tried current) (by simp)
  · intro isLive current channels tried
    unfold nextChannel
    dsimp only
    rw [scanChannels_eq_find]
  · intro isLive current channels tried hno
    unfold nextChannel
    dsimp only
    rw [scanChannels_eq_find, List.find?_eq_none.mpr
      (fun x hx => by simp [hno x hx])]

theorem C5_fallback_next_channel_witness :
    (allChannelUrls ["A", "B"] "A" ⊆ triedWithCurrent ["A", "B"] "A" ↔
      triedAfterReset ["A", "B"] "A" ["A", "B"] = []) ∧
    (nextChannel (fun _ => false) "A" ["A", "B"] [] =
      (none, triedAfterReset ["A", "B"] "A" [])) :=
  ⟨C5_fallback_next_channel.1 "A" ["A", "B"] ["A", "B"] (by decide) (by decide)
      (by decide) (by decide),
   C5_fallback_next_channel.2.2.1 (fun _ => false) "A" ["A", "B"] []
      (fun ch _ => rfl)⟩

/-- C10: `kick_is_live_by_api` fails open.  Whenever the underlying status
check is inconclusive the status is `None` and the probe reports live: a
non-kick.com netloc, a URL without a username, and an exception anywhere in
the request chain each yield `None`; and consequently the fallback scan treats
an unverifiable sibling as live and selects it. -/
theorem C10_api_probe_fails_open :
    (∀ net url, kick_live_status_by_api net url = none →
      kick_is_live_by_api net url = true) ∧
    (∀ net url, containsSub "kick.com" (netlocOf url) = false →
      kick_live_status_by_api net url = none) ∧
    (∀ net url, usernameOf url = "" → kick_live_status_by_api net url = none) ∧
    (∀ url, kick_live_status_by_api (fun _ => none) url = none) ∧
    (nextChannel (kick_is_live_by_api (fun _ => none)) "https://kick.com/a"
        ["https://kick.com/a", "https://example.org/b"] [] =
      (some "https://example.org/b",
        ["https://kick.com/a", "https://example.org/b"])) := by
  refine ⟨?_, ?_, ?_, ?_, by decide⟩
  · intro net url h
    unfold kick_is_live_by_api
    rw [h]
  · intro net url h
    unfold kick_live_status_by_api
    rw [if_pos h]
  · intro net url h
    unfold kick_live_status_by_api
    by_cases h1 : containsSub "kick.com" (netlocOf url) = false
    · rw [if_pos h1]
    · rw [if_neg h1]
      dsimp only
      rw [if_pos h]
  · intro url
    unfold kick_live_status_by_api
    dsimp only
    split_ifs <;> rfl

def netNone : String → Option Bool := fun _ => none

def netSome : String → Option Bool := fun _ => some true

theorem C10_api_probe_fails_open_witness :
    kick_is_live_by_api netNone "https://example.org/b" = true ∧
    kick_live_status_by_api netSome "https://twitch.tv/abc" = none ∧
    kick_live_status_by_api netSome "https://kick.com" = none :=
  ⟨C10_api_probe_fails_open.1 netNone "https://example.org/b" (by decide),
   C10_api_probe_fails_open.2.1 netSome "https://twitch.tv/abc" (by decide),
   C10_api_probe_fails_open.2.2.1 netSome "https://kick.com" (by decide)⟩

end KDM

